import Mathlib

/-!
Verification of the driver-instruction resolution subsystem of the
connectcloud-mcp-server repository.

The embedding follows `src/tools/instructions/getInstructions.ts`
(the alias-based resolver: `normalizeDriverName`, `DRIVER_ALIASES`,
`fetchApiInstructions`, `loadLocalInstructions`, `loadGenericInstructions`,
`getInstructions`), `src/tools/instructions/cache.ts` (`InstructionsCache`)
and `src/tools/instructions/types.ts` (`DriverInstructions`, `CacheEntry`).

Effectful parts are modelled explicitly:
  * `Date.now()` becomes a `now : Nat` parameter (milliseconds);
  * the `Map` inside the cache becomes an association list threaded as state;
  * the process environment, the external instructions API and the packaged
    JSON file store become an `Env` record of pure functions, where `Option`
    layers record file absence and JSON-parse failure separately;
  * the tier that satisfied a resolution (logged by the source as the
    `source` field) is returned alongside the result so that attribution
    is observable, as the control flow of the source makes it.
-/

set_option autoImplicit false

namespace ConnectCloud

/-! ## Data model, from `src/tools/instructions/types.ts` -/

structure DataModel where
  hierarchy : String
  keyTables : List String
  relationships : String
deriving DecidableEq, Repr

structure QueryPatterns where
  timeFiltering : String
  commonQueries : List String
  bestPractices : List String
deriving DecidableEq, Repr

structure FieldConventions where
  userFields : String
  dateFields : String
  idFields : String
deriving DecidableEq, Repr

structure InstructionsBody where
  overview : String
  dataModel : DataModel
  queryPatterns : QueryPatterns
  fieldConventions : FieldConventions
  limitations : List String
  troubleshooting : List String
deriving DecidableEq, Repr

structure DriverInstructions where
  driverName : String
  version : String
  instructions : InstructionsBody
  lastUpdated : String
deriving DecidableEq, Repr

/-- `CacheEntry` from `types.ts`: data plus creation timestamp and ttl
(milliseconds). -/
structure CacheEntry where
  data : DriverInstructions
  timestamp : Nat
  ttl : Nat
deriving DecidableEq, Repr

/-! ## Association-list model of the JavaScript `Map` -/

/-- `Map.get`: first (and, with `Map` semantics, only) binding of the key. -/
def mapLookup {α : Type} : List (String × α) → String → Option α
  | [], _ => none
  | (k2, v) :: rest, k => if k2 = k then some v else mapLookup rest k

/-- `Map.set`: replace the binding in place if the key is present,
otherwise append. -/
def mapInsert {α : Type} : List (String × α) → String → α → List (String × α)
  | [], k, v => [(k, v)]
  | (k2, v2) :: rest, k, v =>
      if k2 = k then (k, v) :: rest else (k2, v2) :: mapInsert rest k v

/-- `Map.delete`: remove the binding of the key. -/
def mapErase {α : Type} : List (String × α) → String → List (String × α)
  | [], _ => []
  | (k2, v2) :: rest, k =>
      if k2 = k then rest else (k2, v2) :: mapErase rest k

/-- JavaScript `String.prototype.toLowerCase`, restricted to the ASCII
range that driver names and canonical identifiers use. -/
def jsToLower (s : String) : String :=
  ⟨s.data.map Char.toLower⟩

/-! ## The instructions cache, from `src/tools/instructions/cache.ts` -/

/-- The cache state: the private `Map<string, CacheEntry>` field. -/
structure InstructionsCache where
  cache : List (String × CacheEntry)
deriving DecidableEq, Repr

/-- `private defaultTTL = 15 * 60 * 1000; // 15 minutes` -/
def InstructionsCache.defaultTTL : Nat := 15 * 60 * 1000

/-- `get(driverName)`: look up by lowercased key; a present entry with
`Date.now() - entry.timestamp > entry.ttl` is deleted and `null` returned,
otherwise its data is returned.  The possibly-updated map is returned as
the second component. -/
def InstructionsCache.get (c : InstructionsCache) (driverName : String)
    (now : Nat) : Option DriverInstructions × InstructionsCache :=
  match mapLookup c.cache (jsToLower driverName) with
  | none => (none, c)
  | some entry =>
      if now - entry.timestamp > entry.ttl then
        (none, ⟨mapErase c.cache (jsToLower driverName)⟩)
      else
        (some entry.data, c)

/-- `ttl || this.defaultTTL`: a falsy ttl argument (absent, or the number
`0`) is replaced by the default. -/
def InstructionsCache.ttlOrDefault : Option Nat → Nat
  | none => InstructionsCache.defaultTTL
  | some t => if t = 0 then InstructionsCache.defaultTTL else t

/-- `set(driverName, data, ttl?)`: store under the lowercased key with a
fresh timestamp. -/
def InstructionsCache.set (c : InstructionsCache) (driverName : String)
    (data : DriverInstructions) (ttl : Option Nat) (now : Nat) :
    InstructionsCache :=
  ⟨mapInsert c.cache (jsToLower driverName)
    { data := data, timestamp := now, ttl := InstructionsCache.ttlOrDefault ttl }⟩

/-- `clear()`. -/
def InstructionsCache.clear (_ : InstructionsCache) : InstructionsCache :=
  ⟨[]⟩

/-- `size()`. -/
def InstructionsCache.size (c : InstructionsCache) : Nat :=
  c.cache.length

/-- `cleanup()`: delete every entry whose age exceeds its own ttl. -/
def InstructionsCache.cleanup (c : InstructionsCache) (now : Nat) :
    InstructionsCache :=
  ⟨c.cache.filter (fun p => ! decide (now - p.2.timestamp > p.2.ttl))⟩

/-! ## Normalizer and alias table, from `getInstructions.ts` -/

/-- `DRIVER_ALIASES` verbatim. -/
def DRIVER_ALIASES : List (String × String) :=
  [ ("azuredevops", "azure-devops")
  , ("vsts", "azure-devops")
  , ("tfs", "azure-devops")
  , ("sharepoint", "sharepoint")
  , ("sharepointonline", "sharepoint")
  , ("salesforce", "salesforce")
  , ("sfdc", "salesforce")
  , ("dynamics365", "dynamics-365")
  , ("dynamics", "dynamics-365")
  , ("servicenow", "servicenow")
  , ("snow", "servicenow")
  , ("oracle", "oracle-service-cloud")
  , ("osc", "oracle-service-cloud")
  , ("hubspot", "hubspot")
  , ("jira", "jira")
  , ("quickbooks", "quickbooks")
  , ("qb", "quickbooks")
  , ("netsuite", "netsuite")
  ]

/-- The character class kept by the regex replacement
`.replace(/[^a-z0-9]/g, '')` (applied after lowercasing). -/
def isLowerAlnum (c : Char) : Bool :=
  (('a' ≤ c && c ≤ 'z') || ('0' ≤ c && c ≤ '9'))

/-- The runtime value of `DRIVER_ALIASES[normalized] || normalized`.  The
alias table is a plain object literal, so JavaScript property access falls
back to its prototype, `Object.prototype`.  The lookup key is always an
all-lowercase alphanumeric string, and `constructor` is the only own
property of `Object.prototype` such a string can name (every other one —
`hasOwnProperty`, `toString`, `valueOf`, `__proto__`, … — contains an
uppercase letter or an underscore that the stripping removes, and property
access is case-sensitive).  So `DRIVER_ALIASES['constructor']` evaluates to
the inherited `Object` constructor function — truthy, and not a string. -/
inductive NormalizedName where
  | str (s : String) : NormalizedName
  | objectCtorFn : NormalizedName
deriving DecidableEq, Repr

/-- `normalizeDriverName`: lowercase, strip every character outside
`[a-z0-9]`, then evaluate `DRIVER_ALIASES[normalized] || normalized` under
JavaScript semantics: an own entry (a nonempty string, truthy) wins;
otherwise the key `constructor` hits the prototype chain and yields the
truthy `Object` function; otherwise the access is `undefined` (falsy) and
`||` keeps the stripped string itself. -/
def normalizeDriverName (driverName : String) : NormalizedName :=
  let normalized : String := ⟨(driverName.data.map Char.toLower).filter isLowerAlnum⟩
  match mapLookup DRIVER_ALIASES normalized with
  | some v => NormalizedName.str v
  | none =>
      if normalized = "constructor" then NormalizedName.objectCtorFn
      else NormalizedName.str normalized

/-! ## Environment: process env, external API, packaged file store -/

/-- Outcome of the single `fetch` issued by `fetchApiInstructions`:
either the promise rejects (network/transport error), or a response
arrives with `ok`, `status`, and a body whose JSON parse yields a
document or fails (`none`). -/
inductive RemoteOutcome where
  | networkError : RemoteOutcome
  | httpResponse (ok : Bool) (status : Nat) (body : Option DriverInstructions) : RemoteOutcome
deriving DecidableEq, Repr

/-- The ambient world of the resolver: the two `INSTRUCTIONS_API_*`
environment variables, the remote API's behaviour per requested name, and
the packaged `driverInstructions/<name>.json` store, where `files n = none`
means the file does not exist (`fs.existsSync` false), `some none` means it
exists but `JSON.parse` throws, and `some (some d)` means it parses to `d`. -/
structure Env where
  INSTRUCTIONS_API_URL : Option String
  INSTRUCTIONS_API_KEY : Option String
  remote : String → RemoteOutcome
  files : String → Option (Option DriverInstructions)

/-- JavaScript falsiness of an environment variable: unset, or set to the
empty string. -/
def isFalsyStr : Option String → Bool
  | none => true
  | some s => s.isEmpty

/-- `loadLocalInstructions`: missing file yields `null`; a read/parse
exception is caught and also yields `null`. -/
def loadLocalInstructions (env : Env) (driverName : String) :
    Option DriverInstructions :=
  match env.files driverName with
  | none => none
  | some none => none
  | some (some d) => some d

/-- `fetchApiInstructions`: skipped entirely when either configuration
variable is falsy; a rejected fetch is caught to `null`; a non-ok response
with status 404 returns `null`, any other non-ok status throws an
`API Error` that the same function catches to `null`; an unparseable body
likewise ends as `null`. -/
def fetchApiInstructions (env : Env) (driverName : String) :
    Option DriverInstructions :=
  if isFalsyStr env.INSTRUCTIONS_API_URL || isFalsyStr env.INSTRUCTIONS_API_KEY then
    none
  else
    match env.remote driverName with
    | RemoteOutcome.networkError => none
    | RemoteOutcome.httpResponse ok status body =>
        if !ok then
          if status = 404 then none else none
        else
          match body with
          | none => none
          | some d => some d

/-- `loadGenericInstructions`. -/
def loadGenericInstructions (env : Env) : Option DriverInstructions :=
  loadLocalInstructions env "generic"

/-! ## The resolver, `getInstructions` (fallback-strategy version) -/

/-- Which tier satisfied a resolution.  The source logs this as the
`source` detail; it is a direct image of the control flow. -/
inductive Tier where
  | cache : Tier
  | remote : Tier
  | localStore : Tier
  | generic : Tier
deriving DecidableEq, Repr

/-- Strategies 1–3 of `getInstructions`: external API, then local file,
then generic document, each tried only when the previous produced
nothing, tagged with the tier that succeeded. -/
def resolveTiers (env : Env) (canonicalId : String) :
    Option (DriverInstructions × Tier) :=
  match fetchApiInstructions env canonicalId with
  | some ins => some (ins, Tier.remote)
  | none =>
      match loadLocalInstructions env canonicalId with
      | some ins => some (ins, Tier.localStore)
      | none =>
          match loadGenericInstructions env with
          | some ins => some (ins, Tier.generic)
          | none => none

/-- The resolver `getInstructions(driverName, connectionId?)`.  Returns the
envelope result (`Except.error` carries the thrown message placed in the
JSON-RPC error object), the tier that satisfied the request (`none` on the
error path), and the cache state after the call.  Two statements inside the
`try` can throw to the outer catch: when `normalizeDriverName` leaks the
`Object` function, `instructionsCache.get(normalizedDriverName)` evaluates
`driverName.toLowerCase()` on a function and throws a TypeError (Node's
message: `driverName.toLowerCase is not a function`) before any tier is
consulted and before the cache is touched; otherwise the only throw is the
explicit `throw new Error(\x7b...\x7d)` when all three tiers produce
nothing. -/
def getInstructionsResolve (env : Env) (c : InstructionsCache) (now : Nat)
    (driverName : String) :
    Except String DriverInstructions × Option Tier × InstructionsCache :=
  match normalizeDriverName driverName with
  | NormalizedName.objectCtorFn =>
      (Except.error "driverName.toLowerCase is not a function", none, c)
  | NormalizedName.str normalizedDriverName =>
      let got := InstructionsCache.get c normalizedDriverName now
      match got.1 with
      | some cachedInstructions => (Except.ok cachedInstructions, some Tier.cache, got.2)
      | none =>
          match resolveTiers env normalizedDriverName with
          | none =>
              (Except.error ("No instructions available for driver: " ++ driverName),
               none, got.2)
          | some (instructions, tier) =>
              let cacheTTL : Option Nat :=
                if instructions.driverName = "generic" then some (5 * 60 * 1000) else none
              (Except.ok instructions, some tier,
               InstructionsCache.set got.2 normalizedDriverName instructions cacheTTL now)

/-! ## Concrete fixtures for counterexamples and witnesses -/

/-- A minimal concrete document with the given `driverName`. -/
def mkDoc (name : String) : DriverInstructions :=
  { driverName := name
  , version := "1.0"
  , instructions :=
      { overview := ""
      , dataModel := { hierarchy := "", keyTables := [], relationships := "" }
      , queryPatterns := { timeFiltering := "", commonQueries := [], bestPractices := [] }
      , fieldConventions := { userFields := "", dateFields := "", idFields := "" }
      , limitations := []
      , troubleshooting := [] }
  , lastUpdated := "" }

/-- An environment with no remote configuration and an empty file store. -/
def envEmpty : Env :=
  { INSTRUCTIONS_API_URL := none
  , INSTRUCTIONS_API_KEY := none
  , remote := fun _ => RemoteOutcome.networkError
  , files := fun _ => none }

/-- No remote configuration; the file store holds only a document whose
`driverName` field is `"Generic"` (capitalised) under the key `generic`. -/
def envGenericCap : Env :=
  { INSTRUCTIONS_API_URL := none
  , INSTRUCTIONS_API_KEY := none
  , remote := fun _ => RemoteOutcome.networkError
  , files := fun n => if n = "generic" then some (some (mkDoc "Generic")) else none }

/-- No remote configuration; the file store holds `azure-devops.json` and a
well-formed `generic.json` whose document is named `"generic"`. -/
def envAzure : Env :=
  { INSTRUCTIONS_API_URL := none
  , INSTRUCTIONS_API_KEY := none
  , remote := fun _ => RemoteOutcome.networkError
  , files := fun n =>
      if n = "azure-devops" then some (some (mkDoc "Azure DevOps"))
      else if n = "generic" then some (some (mkDoc "generic"))
      else none }

/-- Remote configuration present, but every request gets a 500 response;
the file store holds `netsuite.json`. -/
def envRemote500 : Env :=
  { INSTRUCTIONS_API_URL := some "https://instructions.example"
  , INSTRUCTIONS_API_KEY := some "key"
  , remote := fun _ => RemoteOutcome.httpResponse false 500 none
  , files := fun n => if n = "netsuite" then some (some (mkDoc "NetSuite")) else none }

/-- No remote configuration; the file store holds `constructor.json` and a
well-formed `generic.json`. -/
def envCtor : Env :=
  { INSTRUCTIONS_API_URL := none
  , INSTRUCTIONS_API_KEY := none
  , remote := fun _ => RemoteOutcome.networkError
  , files := fun n =>
      if n = "constructor" then some (some (mkDoc "Constructor"))
      else if n = "generic" then some (some (mkDoc "generic"))
      else none }

/-- Remote configuration present but answering 500 for everything; the file
store holds `constructor.json`. -/
def envCtor500 : Env :=
  { INSTRUCTIONS_API_URL := some "https://instructions.example"
  , INSTRUCTIONS_API_KEY := some "key"
  , remote := fun _ => RemoteOutcome.httpResponse false 500 none
  , files := fun n => if n = "constructor" then some (some (mkDoc "Constructor")) else none }

/-! ## Helper lemmas -/

theorem mapLookup_mapInsert {α : Type} (m : List (String × α)) (k : String) (v : α) :
    mapLookup (mapInsert m k v) k = some v := by
  induction m with
  | nil => simp [mapInsert, mapLookup]
  | cons p rest ih =>
      obtain ⟨k2, v2⟩ := p
      by_cases h : k2 = k
      · simp [mapInsert, h, mapLookup]
      · simp [mapInsert, h, mapLookup, ih]

theorem get_set_same (c : InstructionsCache) (k : String) (d : DriverInstructions)
    (ttl : Option Nat) (now : Nat) :
    InstructionsCache.get (InstructionsCache.set c k d ttl now) k now =
      (some d, InstructionsCache.set c k d ttl now) := by
  unfold InstructionsCache.get InstructionsCache.set
  simp [mapLookup_mapInsert]

theorem get_of_lookup_none (c : InstructionsCache) (k : String) (now : Nat)
    (h : mapLookup c.cache (jsToLower k) = none) :
    InstructionsCache.get c k now = (none, c) := by
  unfold InstructionsCache.get
  rw [h]

theorem fetchApi_none_of_noConfig (env : Env) (id_ : String)
    (h : env.INSTRUCTIONS_API_URL = none ∨ env.INSTRUCTIONS_API_KEY = none) :
    fetchApiInstructions env id_ = none := by
  unfold fetchApiInstructions
  rcases h with h | h <;> simp [h, isFalsyStr]

theorem loadLocal_of_file (env : Env) (id_ : String) (d : DriverInstructions)
    (h : env.files id_ = some (some d)) :
    loadLocalInstructions env id_ = some d := by
  unfold loadLocalInstructions
  rw [h]

theorem resolveTiers_local_eq (env : Env) (id_ : String) (d : DriverInstructions)
    (hapi : fetchApiInstructions env id_ = none)
    (hloc : loadLocalInstructions env id_ = some d) :
    resolveTiers env id_ = some (d, Tier.localStore) := by
  unfold resolveTiers
  rw [hapi, hloc]

theorem resolveTiers_generic_eq (env : Env) (id_ : String) (g : DriverInstructions)
    (hapi : fetchApiInstructions env id_ = none)
    (hloc : loadLocalInstructions env id_ = none)
    (hgen : loadGenericInstructions env = some g) :
    resolveTiers env id_ = some (g, Tier.generic) := by
  unfold resolveTiers
  rw [hapi, hloc, hgen]

theorem resolveTiers_eq_none (env : Env) (id_ : String) :
    resolveTiers env id_ = none ↔
      (fetchApiInstructions env id_ = none ∧ loadLocalInstructions env id_ = none ∧
       loadGenericInstructions env = none) := by
  unfold resolveTiers
  cases h1 : fetchApiInstructions env id_ <;>
    cases h2 : loadLocalInstructions env id_ <;>
    cases h3 : loadGenericInstructions env <;>
    simp [h1, h2, h3]

theorem resolve_of_miss (env : Env) (c : InstructionsCache) (now : Nat) (raw n : String)
    (hn : normalizeDriverName raw = NormalizedName.str n)
    (hmiss : (InstructionsCache.get c n now).1 = none) :
    getInstructionsResolve env c now raw =
      match resolveTiers env n with
      | none =>
          (Except.error ("No instructions available for driver: " ++ raw), none,
           (InstructionsCache.get c n now).2)
      | some (ins, tier) =>
          (Except.ok ins, some tier,
           InstructionsCache.set (InstructionsCache.get c n now).2 n ins
             (if ins.driverName = "generic" then some (5 * 60 * 1000) else none) now) := by
  simp only [getInstructionsResolve, hn]
  rw [hmiss]

theorem resolve_of_hit (env : Env) (c : InstructionsCache) (now : Nat) (raw n : String)
    (v : DriverInstructions)
    (hn : normalizeDriverName raw = NormalizedName.str n)
    (hhit : (InstructionsCache.get c n now).1 = some v) :
    getInstructionsResolve env c now raw =
      (Except.ok v, some Tier.cache, (InstructionsCache.get c n now).2) := by
  simp only [getInstructionsResolve, hn]
  rw [hhit]

theorem resolve_of_ctor (env : Env) (c : InstructionsCache) (now : Nat) (raw : String)
    (hn : normalizeDriverName raw = NormalizedName.objectCtorFn) :
    getInstructionsResolve env c now raw =
      (Except.error "driverName.toLowerCase is not a function", none, c) := by
  simp only [getInstructionsResolve, hn]

/-! ## Claim theorems -/

/-- C7: both `get` and the periodic sweep evict exactly the entries whose
age `now - timestamp` strictly exceeds their own ttl: `get` on such an
entry deletes it and returns absent, `get` on a younger entry returns the
stored document with the cache unchanged, a `cleanup` past every entry's
ttl leaves `size` 0, and an entry survives `cleanup` exactly when it is
not yet expired. -/
theorem c7_lazy_expiry_and_sweep (c : InstructionsCache) (now : Nat) :
    (∀ (k : String) (e : CacheEntry),
        mapLookup c.cache (jsToLower k) = some e →
        now - e.timestamp > e.ttl →
        InstructionsCache.get c k now = (none, ⟨mapErase c.cache (jsToLower k)⟩)) ∧
    (∀ (k : String) (e : CacheEntry),
        mapLookup c.cache (jsToLower k) = some e →
        ¬ (now - e.timestamp > e.ttl) →
        InstructionsCache.get c k now = (some e.data, c)) ∧
    ((∀ p ∈ c.cache, now - p.2.timestamp > p.2.ttl) →
        (InstructionsCache.cleanup c now).size = 0) ∧
    (∀ p : String × CacheEntry,
        p ∈ (InstructionsCache.cleanup c now).cache ↔
          (p ∈ c.cache ∧ ¬ (now - p.2.timestamp > p.2.ttl))) := by
  refine ⟨?_, ?_, ?_, ?_⟩
  · intro k e hlk hexp
    simp [InstructionsCache.get, hlk, hexp]
  · intro k e hlk hyoung
    simp [InstructionsCache.get, hlk, hyoung]
  · intro hall
    unfold InstructionsCache.cleanup InstructionsCache.size
    simp only [List.length_eq_zero, List.filter_eq_nil_iff]
    intro p hp
    simp [hall p hp]
  · intro p
    simp [InstructionsCache.cleanup, List.mem_filter]

/-- C8: `set(k, d, ttl)` with `ttl > 0` followed immediately (no time
passing) by `get(k)` returns `d` unchanged, and the stored entry keeps the
given ttl. -/
theorem c8_set_get_roundtrip (c : InstructionsCache) (k : String)
    (d : DriverInstructions) (ttl now : Nat) (h : 0 < ttl) :
    InstructionsCache.get (InstructionsCache.set c k d (some ttl) now) k now =
      (some d, InstructionsCache.set c k d (some ttl) now) ∧
    mapLookup (InstructionsCache.set c k d (some ttl) now).cache (jsToLower k) =
      some { data := d, timestamp := now, ttl := ttl } := by
  refine ⟨get_set_same c k d (some ttl) now, ?_⟩
  unfold InstructionsCache.set
  rw [mapLookup_mapInsert]
  simp [InstructionsCache.ttlOrDefault, Nat.pos_iff_ne_zero.mp h]

/-- C8 witness at a concrete input. -/
theorem c8_set_get_roundtrip_witness :
    InstructionsCache.get
        (InstructionsCache.set ⟨[]⟩ "azure-devops" (mkDoc "Azure DevOps") (some 1) 0)
        "azure-devops" 0 =
      (some (mkDoc "Azure DevOps"),
       InstructionsCache.set ⟨[]⟩ "azure-devops" (mkDoc "Azure DevOps") (some 1) 0) :=
  (c8_set_get_roundtrip ⟨[]⟩ "azure-devops" (mkDoc "Azure DevOps") 1 0 (by decide)).1

/-- C9: a falsy ttl argument (the number 0, or an absent argument) is
replaced by the 15-minute default, so `set(k, d, 0)` stores an entry that
an immediate `get(k)` still returns. -/
theorem c9_zero_ttl_defaulted (c : InstructionsCache) (k : String)
    (d : DriverInstructions) (now : Nat) :
    InstructionsCache.set c k d (some 0) now = InstructionsCache.set c k d none now ∧
    mapLookup (InstructionsCache.set c k d (some 0) now).cache (jsToLower k) =
      some { data := d, timestamp := now, ttl := InstructionsCache.defaultTTL } ∧
    InstructionsCache.get (InstructionsCache.set c k d (some 0) now) k now =
      (some d, InstructionsCache.set c k d (some 0) now) := by
  refine ⟨rfl, ?_, get_set_same c k d (some 0) now⟩
  unfold InstructionsCache.set
  rw [mapLookup_mapInsert]
  simp [InstructionsCache.ttlOrDefault]

/-- C10: the normalizer is not idempotent: `"osc"` maps to the canonical
identifier `"oracle-service-cloud"`, whose own normalization strips the
hyphens to `"oracleservicecloud"`, which no alias maps back (both lookups
touch only own entries of the alias table, so the prototype quirk plays no
role here). -/
theorem c10_normalize_not_idempotent :
    normalizeDriverName "osc" = NormalizedName.str "oracle-service-cloud" ∧
    normalizeDriverName "oracle-service-cloud" =
        NormalizedName.str "oracleservicecloud" ∧
    (normalizeDriverName "oracle-service-cloud" = normalizeDriverName "osc") = False := by
  refine ⟨rfl, rfl, ?_⟩
  simp only [eq_iff_iff, iff_false]
  decide

/-- C1 counterexample: the raw name `"constructor"` has a local document
(`constructor.json` parses in `envCtor`) and no remote configuration, yet
on a cold cache the resolver returns the TypeError envelope — the
prototype-chain lookup leaks the `Object` function and
`instructionsCache.get` throws before any tier is consulted — not the
local document. -/
theorem c1_prototype_leak_cex :
    normalizeDriverName "constructor" = NormalizedName.objectCtorFn ∧
    envCtor.files "constructor" = some (some (mkDoc "Constructor")) ∧
    envCtor.INSTRUCTIONS_API_URL = none ∧
    (getInstructionsResolve envCtor ⟨[]⟩ 0 "constructor").1 =
        Except.error "driverName.toLowerCase is not a function" ∧
    (getInstructionsResolve envCtor ⟨[]⟩ 0 "constructor").1.toOption = none ∧
    (getInstructionsResolve envCtor ⟨[]⟩ 0 "constructor").2.1 = none :=
  ⟨rfl, rfl, rfl, rfl, rfl, rfl⟩

/-- C1 amended: for every driver name whose normalization yields a
canonical string identifier (every name except those collapsing to
`constructor`, which leak the `Object` function from the prototype chain
and fail in the cache lookup), with no cache entry for that identifier, no
remote configuration (either `INSTRUCTIONS_API_URL` or
`INSTRUCTIONS_API_KEY` unset), and a parsing local document for it,
resolution returns exactly that document and is satisfied by the local
tier. -/
theorem c1_local_tier_fallback (env : Env) (c : InstructionsCache) (now : Nat)
    (raw n : String) (d : DriverInstructions)
    (hn : normalizeDriverName raw = NormalizedName.str n)
    (hremote : env.INSTRUCTIONS_API_URL = none ∨ env.INSTRUCTIONS_API_KEY = none)
    (hmiss : mapLookup c.cache (jsToLower n) = none)
    (hlocal : env.files n = some (some d)) :
    (getInstructionsResolve env c now raw).1 = Except.ok d ∧
    (getInstructionsResolve env c now raw).2.1 = some Tier.localStore := by
  have hget := get_of_lookup_none c n now hmiss
  have htiers := resolveTiers_local_eq env n d
    (fetchApi_none_of_noConfig env n hremote)
    (loadLocal_of_file env n d hlocal)
  have h := resolve_of_miss env c now raw n hn (by rw [hget])
  rw [h, htiers]
  exact ⟨rfl, rfl⟩

/-- C1 witness: raw name `"VSTS"`, canonical `azure-devops`, on a cold
cache against `envAzure`. -/
theorem c1_local_tier_fallback_witness :
    (getInstructionsResolve envAzure ⟨[]⟩ 0 "VSTS").1 =
        Except.ok (mkDoc "Azure DevOps") ∧
    (getInstructionsResolve envAzure ⟨[]⟩ 0 "VSTS").2.1 = some Tier.localStore :=
  c1_local_tier_fallback envAzure ⟨[]⟩ 0 "VSTS" "azure-devops" (mkDoc "Azure DevOps")
    rfl (Or.inl rfl) rfl rfl

/-- C2 counterexample: at the raw name `"constructor"` the resolver
returns a structured error even though the generic document is present and
well-formed in `envCtor`, and the message — Node's TypeError text — does
not carry the requested driver name. -/
theorem c2_prototype_leak_cex :
    loadGenericInstructions envCtor = some (mkDoc "generic") ∧
    (getInstructionsResolve envCtor ⟨[]⟩ 0 "constructor").1 =
        Except.error "driverName.toLowerCase is not a function" ∧
    (getInstructionsResolve envCtor ⟨[]⟩ 0 "constructor").1.toOption = none ∧
    ("driverName.toLowerCase is not a function" =
      "No instructions available for driver: " ++ "constructor") = False := by
  refine ⟨rfl, rfl, rfl, ?_⟩
  simp only [eq_iff_iff, iff_false]
  decide

/-- C2 amended: resolution yields an error envelope exactly when either the
normalization leaks the `Object` function (names collapsing to
`constructor`), where the message is the cache lookup's TypeError text and
carries no driver name, or the cache lookup and all three tiers produce
nothing, where the message carries the originally requested (raw) driver
name; in every other case a document is returned. -/
theorem c2_terminal_error_iff (env : Env) (c : InstructionsCache) (now : Nat)
    (raw : String) :
    ((∃ e, (getInstructionsResolve env c now raw).1 = Except.error e) ↔
      (normalizeDriverName raw = NormalizedName.objectCtorFn ∨
       ∃ n, normalizeDriverName raw = NormalizedName.str n ∧
         (InstructionsCache.get c n now).1 = none ∧
         fetchApiInstructions env n = none ∧
         loadLocalInstructions env n = none ∧
         loadGenericInstructions env = none)) ∧
    (∀ e, (getInstructionsResolve env c now raw).1 = Except.error e →
       ((normalizeDriverName raw = NormalizedName.objectCtorFn ∧
         e = "driverName.toLowerCase is not a function") ∨
        e = "No instructions available for driver: " ++ raw)) ∧
    (¬ (normalizeDriverName raw = NormalizedName.objectCtorFn ∨
        ∃ n, normalizeDriverName raw = NormalizedName.str n ∧
          (InstructionsCache.get c n now).1 = none ∧
          fetchApiInstructions env n = none ∧
          loadLocalInstructions env n = none ∧
          loadGenericInstructions env = none) →
      ∃ d, (getInstructionsResolve env c now raw).1 = Except.ok d) := by
  cases hn : normalizeDriverName raw with
  | objectCtorFn =>
      have h := resolve_of_ctor env c now raw hn
      rw [h]
      refine ⟨?_, ?_, ?_⟩
      · constructor
        · intro _
          exact Or.inl rfl
        · intro _
          exact ⟨_, rfl⟩
      · intro e he
        simp only at he
        exact Or.inl ⟨rfl, (Except.error.inj he).symm⟩
      · intro hcontra
        exact absurd (Or.inl rfl) hcontra
  | str n =>
      have hne : ¬ (NormalizedName.str n = NormalizedName.objectCtorFn) := by
        intro hcon
        exact NormalizedName.noConfusion hcon
      cases hg : (InstructionsCache.get c n now).1 with
      | some v =>
          have h := resolve_of_hit env c now raw n v hn hg
          rw [h]
          refine ⟨?_, ?_, ?_⟩
          · constructor
            · rintro ⟨e, he⟩
              simp at he
            · rintro (hctor | ⟨n2, hn2, hmiss, -⟩)
              · exact absurd hctor hne
              · obtain rfl : n = n2 := NormalizedName.str.inj hn2
                rw [hg] at hmiss
                simp at hmiss
          · intro e he
            simp at he
          · intro _
            exact ⟨v, rfl⟩
      | none =>
          have h := resolve_of_miss env c now raw n hn hg
          cases ht : resolveTiers env n with
          | none =>
              rw [ht] at h
              rw [h]
              have hconds := (resolveTiers_eq_none env n).mp ht
              refine ⟨?_, ?_, ?_⟩
              · constructor
                · intro _
                  exact Or.inr ⟨n, rfl, hg, hconds.1, hconds.2.1, hconds.2.2⟩
                · intro _
                  exact ⟨_, rfl⟩
              · intro e he
                simp only at he
                exact Or.inr (Except.error.inj he).symm
              · intro hcontra
                exact absurd (Or.inr ⟨n, rfl, hg, hconds.1, hconds.2.1, hconds.2.2⟩)
                  hcontra
          | some p =>
              obtain ⟨ins, tier⟩ := p
              rw [ht] at h
              rw [h]
              refine ⟨?_, ?_, ?_⟩
              · constructor
                · rintro ⟨e, he⟩
                  simp at he
                · rintro (hctor | ⟨n2, hn2, hmiss, hconds⟩)
                  · exact absurd hctor hne
                  · obtain rfl : n = n2 := NormalizedName.str.inj hn2
                    have hnone : resolveTiers env n = none :=
                      (resolveTiers_eq_none env n).mpr hconds
                    rw [ht] at hnone
                    simp at hnone
              · intro e he
                simp at he
              · intro _
                exact ⟨ins, rfl⟩

/-- C5 counterexample: at the raw name `"constructor"` — cold cache, local
`constructor.json` present, remote configured and failing with a 500 — the
resolver returns the TypeError envelope from the cache lookup instead of
proceeding to the local tier, so the claim's universal local-tier fallback
fails. -/
theorem c5_prototype_leak_cex :
    envCtor500.remote "constructor" = RemoteOutcome.httpResponse false 500 none ∧
    envCtor500.files "constructor" = some (some (mkDoc "Constructor")) ∧
    (getInstructionsResolve envCtor500 ⟨[]⟩ 0 "constructor").1 =
        Except.error "driverName.toLowerCase is not a function" ∧
    (getInstructionsResolve envCtor500 ⟨[]⟩ 0 "constructor").2.1 = none :=
  ⟨rfl, rfl, rfl, rfl⟩

/-- C5 amended: for every raw name whose normalization yields a canonical
string identifier, any remote-tier network error or non-success HTTP
response (404 or otherwise) is downgraded to the tier producing nothing,
never an error to the caller, and control proceeds to the local tier; a
name collapsing to `constructor` instead fails in the cache lookup before
any tier is consulted. -/
theorem c5_remote_failures_nonfatal (env : Env) (c : InstructionsCache)
    (now : Nat) (raw n : String) (status : Nat) (body : Option DriverInstructions)
    (d : DriverInstructions)
    (hn : normalizeDriverName raw = NormalizedName.str n)
    (hfail : env.remote n = RemoteOutcome.networkError ∨
             env.remote n = RemoteOutcome.httpResponse false status body) :
    fetchApiInstructions env n = none ∧
    ((InstructionsCache.get c n now).1 = none →
     loadLocalInstructions env n = some d →
     (getInstructionsResolve env c now raw).1 = Except.ok d ∧
     (getInstructionsResolve env c now raw).2.1 = some Tier.localStore) := by
  have hapi : fetchApiInstructions env n = none := by
    unfold fetchApiInstructions
    split
    · rfl
    · rcases hfail with h | h <;> simp [h]
  refine ⟨hapi, ?_⟩
  intro hmiss hloc
  have htiers := resolveTiers_local_eq env n d hapi hloc
  have h := resolve_of_miss env c now raw n hn hmiss
  rw [h, htiers]
  exact ⟨rfl, rfl⟩

/-- C5 witness: remote configured but answering 500 for everything; the
resolution of `"netsuite"` on a cold cache comes from the local tier. -/
theorem c5_remote_failures_nonfatal_witness :
    fetchApiInstructions envRemote500 "netsuite" = none ∧
    (getInstructionsResolve envRemote500 ⟨[]⟩ 0 "netsuite").1 =
        Except.ok (mkDoc "NetSuite") ∧
    (getInstructionsResolve envRemote500 ⟨[]⟩ 0 "netsuite").2.1 =
        some Tier.localStore := by
  have h := c5_remote_failures_nonfatal envRemote500 ⟨[]⟩ 0 "netsuite" "netsuite"
    500 none (mkDoc "NetSuite") rfl (Or.inr rfl)
  exact ⟨h.1, (h.2 rfl rfl).1, (h.2 rfl rfl).2⟩

/-- C6: two raw names with the same canonical identifier resolve alike on
the same cache and environment: same returned document (when one is
returned), same satisfying tier and same resulting cache; the normalizer
itself is a pure Lean function, so its determinism is by construction. -/
theorem c6_alias_insensitivity (env : Env) (c : InstructionsCache) (now : Nat)
    (a b : String) (h : normalizeDriverName a = normalizeDriverName b) :
    (getInstructionsResolve env c now a).1.toOption =
      (getInstructionsResolve env c now b).1.toOption ∧
    (getInstructionsResolve env c now a).2.1 =
      (getInstructionsResolve env c now b).2.1 ∧
    (getInstructionsResolve env c now a).2.2 =
      (getInstructionsResolve env c now b).2.2 := by
  cases hb : normalizeDriverName b with
  | objectCtorFn =>
      have ha : normalizeDriverName a = NormalizedName.objectCtorFn := by rw [h, hb]
      rw [resolve_of_ctor env c now a ha, resolve_of_ctor env c now b hb]
      exact ⟨rfl, rfl, rfl⟩
  | str n =>
      have ha : normalizeDriverName a = NormalizedName.str n := by rw [h, hb]
      simp only [getInstructionsResolve, ha, hb]
      cases hg : (InstructionsCache.get c n now).1 with
      | some v => simp
      | none =>
          cases ht : resolveTiers env n with
          | none => simp [Except.toOption]
          | some p => simp

/-- C6 witness: `"VSTS"` and `"tfs "` share the canonical identifier
`azure-devops` and resolve identically against `envAzure` on a cold
cache. -/
theorem c6_alias_insensitivity_witness :
    (getInstructionsResolve envAzure ⟨[]⟩ 0 "VSTS").1.toOption =
      (getInstructionsResolve envAzure ⟨[]⟩ 0 "tfs ").1.toOption ∧
    (getInstructionsResolve envAzure ⟨[]⟩ 0 "VSTS").2.1 =
      (getInstructionsResolve envAzure ⟨[]⟩ 0 "tfs ").2.1 ∧
    (getInstructionsResolve envAzure ⟨[]⟩ 0 "VSTS").2.2 =
      (getInstructionsResolve envAzure ⟨[]⟩ 0 "tfs ").2.2 :=
  c6_alias_insensitivity envAzure ⟨[]⟩ 0 "VSTS" "tfs " rfl

/-- C3 counterexample: against `envGenericCap` the generic tier satisfies
the resolution of `"unknowndriver"` (cold cache, no remote configuration),
yet the entry is stored with the 15-minute default TTL, not the 5-minute
one, because the TTL choice tests the document's `driverName` field — here
`"Generic"`, not the lowercase `"generic"` — rather than the tier. -/
theorem c3_generic_tier_default_ttl_cex :
    (getInstructionsResolve envGenericCap ⟨[]⟩ 0 "unknowndriver").2.1 =
        some Tier.generic ∧
    mapLookup (getInstructionsResolve envGenericCap ⟨[]⟩ 0 "unknowndriver").2.2.cache
        "unknowndriver" =
      some { data := mkDoc "Generic", timestamp := 0, ttl := 15 * 60 * 1000 } ∧
    (5 * 60 * 1000 : Nat) < 15 * 60 * 1000 :=
  ⟨rfl, rfl, by decide⟩

/-- C3 amended: the stored TTL is decided by the resolved document's
`driverName` field, not by the tier that produced it: every successful
non-cache resolution stores its document with the 5-minute TTL exactly when
that field is the string `"generic"`, and with the 15-minute default
otherwise. -/
theorem c3_ttl_by_document_name (env : Env) (c : InstructionsCache) (now : Nat)
    (raw : String) (d : DriverInstructions) (tier : Tier)
    (hok : (getInstructionsResolve env c now raw).1 = Except.ok d)
    (htier : (getInstructionsResolve env c now raw).2.1 = some tier)
    (hnc : tier ≠ Tier.cache) :
    ∃ n, normalizeDriverName raw = NormalizedName.str n ∧
      mapLookup (getInstructionsResolve env c now raw).2.2.cache (jsToLower n) =
        some { data := d, timestamp := now,
               ttl := if d.driverName = "generic" then 5 * 60 * 1000
                      else InstructionsCache.defaultTTL } := by
  cases hn : normalizeDriverName raw with
  | objectCtorFn =>
      have h := resolve_of_ctor env c now raw hn
      rw [h] at hok
      simp at hok
  | str n =>
      refine ⟨n, rfl, ?_⟩
      cases hg : (InstructionsCache.get c n now).1 with
      | some v =>
          have h := resolve_of_hit env c now raw n v hn hg
          rw [h] at htier
          simp at htier
          exact absurd htier.symm hnc
      | none =>
          have h := resolve_of_miss env c now raw n hn hg
          cases ht : resolveTiers env n with
          | none =>
              rw [ht] at h
              rw [h] at hok
              simp at hok
          | some p =>
              obtain ⟨ins, t⟩ := p
              rw [ht] at h
              rw [h] at hok ⊢
              simp only at hok
              have hins : ins = d := by
                simpa using hok
              subst hins
              simp only [InstructionsCache.set]
              rw [mapLookup_mapInsert]
              by_cases hgen : ins.driverName = "generic" <;>
                simp [hgen, InstructionsCache.ttlOrDefault]

/-- C3 amended witness: the resolution of `"unknowndriver"` against
`envGenericCap` stores its document (named `"Generic"`) with the default
TTL. -/
theorem c3_ttl_by_document_name_witness :
    ∃ n, normalizeDriverName "unknowndriver" = NormalizedName.str n ∧
      mapLookup
          (getInstructionsResolve envGenericCap ⟨[]⟩ 0 "unknowndriver").2.2.cache
          (jsToLower n) =
        some { data := mkDoc "Generic", timestamp := 0,
               ttl := if (mkDoc "Generic").driverName = "generic" then 5 * 60 * 1000
                      else InstructionsCache.defaultTTL } :=
  c3_ttl_by_document_name envGenericCap ⟨[]⟩ 0 "unknowndriver" (mkDoc "Generic")
    Tier.generic rfl rfl (by decide)

/-- C4 counterexample: the raw name `"Azure DevOps Services"` collapses to
`"azuredevopsservices"`, which has no alias entry and is not the canonical
`azure-devops` identifier; against `envAzure` — whose local store does hold
`azure-devops.json` — the resolution on a cold cache falls through to the
generic tier instead of returning the local Azure DevOps document. -/
theorem c4_azure_devops_services_cex :
    normalizeDriverName "Azure DevOps Services" =
        NormalizedName.str "azuredevopsservices" ∧
    (normalizeDriverName "Azure DevOps Services" =
        NormalizedName.str "azure-devops") = False ∧
    (getInstructionsResolve envAzure ⟨[]⟩ 0 "Azure DevOps Services").1 =
        Except.ok (mkDoc "generic") ∧
    (getInstructionsResolve envAzure ⟨[]⟩ 0 "Azure DevOps Services").2.1 =
        some Tier.generic ∧
    ((getInstructionsResolve envAzure ⟨[]⟩ 0 "Azure DevOps Services").2.1 =
        some Tier.localStore) = False := by
  refine ⟨rfl, ?_, rfl, rfl, ?_⟩ <;> simp only [eq_iff_iff, iff_false] <;> decide

/-- C4 amended: resolving `"Azure DevOps Services"` on a cold cache with
no remote configuration normalizes to `"azuredevopsservices"` (no alias
maps it to `azure-devops`), so the local lookup is for that identifier;
when the local store has no such file and holds a generic document named
`"generic"`, the resolution is satisfied by the generic tier and cached
under `"azuredevopsservices"` with the 5-minute TTL. -/
theorem c4_azure_devops_services_generic (env : Env) (c : InstructionsCache)
    (now : Nat) (g : DriverInstructions)
    (hremote : env.INSTRUCTIONS_API_URL = none ∨ env.INSTRUCTIONS_API_KEY = none)
    (hmiss : mapLookup c.cache "azuredevopsservices" = none)
    (hnofile : env.files "azuredevopsservices" = none)
    (hgen : env.files "generic" = some (some g))
    (hgname : g.driverName = "generic") :
    normalizeDriverName "Azure DevOps Services" =
        NormalizedName.str "azuredevopsservices" ∧
    (getInstructionsResolve env c now "Azure DevOps Services").1 = Except.ok g ∧
    (getInstructionsResolve env c now "Azure DevOps Services").2.1 =
        some Tier.generic ∧
    mapLookup (getInstructionsResolve env c now "Azure DevOps Services").2.2.cache
        "azuredevopsservices" =
      some { data := g, timestamp := now, ttl := 5 * 60 * 1000 } := by
  have hcanon : normalizeDriverName "Azure DevOps Services" =
      NormalizedName.str "azuredevopsservices" := rfl
  have hlow : jsToLower "azuredevopsservices" = "azuredevopsservices" := rfl
  have hget := get_of_lookup_none c "azuredevopsservices" now
    (by rw [hlow]; exact hmiss)
  have hapi := fetchApi_none_of_noConfig env "azuredevopsservices" hremote
  have hloc : loadLocalInstructions env "azuredevopsservices" = none := by
    unfold loadLocalInstructions
    rw [hnofile]
  have hgeneric : loadGenericInstructions env = some g := by
    unfold loadGenericInstructions loadLocalInstructions
    rw [hgen]
  have htiers := resolveTiers_generic_eq env "azuredevopsservices" g hapi hloc hgeneric
  have h := resolve_of_miss env c now "Azure DevOps Services" "azuredevopsservices"
    hcanon (by rw [hget])
  rw [htiers] at h
  rw [h]
  refine ⟨hcanon, rfl, rfl, ?_⟩
  rw [hget]
  simp only [InstructionsCache.set, hgname, if_pos, hlow]
  rw [mapLookup_mapInsert]
  simp [InstructionsCache.ttlOrDefault]

/-- C4 amended witness against `envAzure` (which holds `azure-devops.json`
and `generic.json` but no `azuredevopsservices.json`) on a cold cache. -/
theorem c4_azure_devops_services_generic_witness :
    normalizeDriverName "Azure DevOps Services" =
        NormalizedName.str "azuredevopsservices" ∧
    (getInstructionsResolve envAzure ⟨[]⟩ 0 "Azure DevOps Services").1 =
        Except.ok (mkDoc "generic") ∧
    (getInstructionsResolve envAzure ⟨[]⟩ 0 "Azure DevOps Services").2.1 =
        some Tier.generic ∧
    mapLookup
        (getInstructionsResolve envAzure ⟨[]⟩ 0 "Azure DevOps Services").2.2.cache
        "azuredevopsservices" =
      some { data := mkDoc "generic", timestamp := 0, ttl := 5 * 60 * 1000 } :=
  c4_azure_devops_services_generic envAzure ⟨[]⟩ 0 (mkDoc "generic")
    (Or.inl rfl) rfl rfl rfl rfl

end ConnectCloud
